import Mathlib

/-!
Verification of the AshBorn engine lifecycle core (`AshCore` namespace of the
C++ sources): the subsystem orchestrator `AshbornEngine` and the frame
scheduler `Application`.  The C++ code is shallowly embedded: machine doubles
become exact rationals, wall-clock reads become explicit `raw` inputs, the
GLFW window becomes an explicit optional flag, and each subsystem's
`init()` outcome becomes an explicit boolean oracle.  Side effects that the
claims talk about (which stages get `shutdown()` calls, which hooks fire)
are returned as explicit traces.
-/

/-- Mirror of `enum class EngineError` (AshbornEngine.h). -/
inductive EngineError
  | None
  | AlreadyInitialized
  | NotInitialized
  | SubsystemFailure
  | InvalidConfiguration
  | Unknown
deriving DecidableEq, Repr

/-- Mirror of `enum class ApplicationError` (Application.h). -/
inductive ApplicationError
  | None
  | EngineInitFailed
  | AlreadyRunning
  | NotInitialized
  | UpdateFailed
  | RenderFailed
  | Unknown
deriving DecidableEq, Repr

/-- Mirror of `enum class NetworkConfig::Mode` (AshbornEngine.h). -/
inductive NetworkMode
  | Offline
  | P2P_Host
  | P2P_Client
  | DedicatedServer
  | DedicatedClient
deriving DecidableEq, Repr

/-- The fields of `WindowConfig` that the embedded code reads
(`width`/`height` are C++ `int`, embedded as `Int`). -/
structure WindowConfig where
  width : Int := 1920
  height : Int := 1080
deriving DecidableEq, Repr

/-- The fields of `WorldConfig` that the embedded code reads
(`chunk_size` is `uint32_t`, embedded as `Nat`). -/
structure WorldConfig where
  chunk_size : Nat := 32
deriving DecidableEq, Repr

/-- The fields of `NetworkConfig` that the embedded code reads. -/
structure NetworkConfig where
  mode : NetworkMode := .Offline
deriving DecidableEq, Repr

/-- The fields of `EngineConfig` that the embedded code reads. -/
structure EngineConfig where
  window : WindowConfig := {}
  world : WorldConfig := {}
  network : NetworkConfig := {}
deriving DecidableEq, Repr

/-- Mirror of `validateEngineConfig` (AshbornEngine.cpp:621-637): reject
non-positive window dimensions, then reject a `chunk_size` that is zero or
fails the `x & (x-1) == 0` power-of-two test. -/
def validateEngineConfig (config : EngineConfig) : Except EngineError Unit :=
  if config.window.width ≤ 0 ∨ config.window.height ≤ 0 then
    .error .InvalidConfiguration
  else if config.world.chunk_size = 0 ∨
      config.world.chunk_size &&& (config.world.chunk_size - 1) ≠ 0 then
    .error .InvalidConfiguration
  else
    .ok ()

/-- The eight bring-up stages of `AshbornEngine::initialize`, in use also as
identifiers for the matching `shutdownXxx` tear-down calls. -/
inductive Stage
  | core
  | window
  | renderer
  | input
  | audio
  | world
  | network
  | assets
deriving DecidableEq, Repr

/-- A stage is critical when its failure aborts `initialize()`
(AshbornEngine.cpp: audio and network failures are the two `print_w`
"continue" paths, every other stage returns `SubsystemFailure`). -/
def Stage.isCritical : Stage → Bool
  | .audio => false
  | .network => false
  | _ => true

/-- The fixed bring-up order of `AshbornEngine::initialize`
(AshbornEngine.cpp:51-141). -/
def stageOrder : List Stage :=
  [.core, .window, .renderer, .input, .audio, .world, .network, .assets]

/-- The stages that come strictly before `k` in bring-up order. -/
def stagesBefore (k : Stage) : List Stage :=
  stageOrder.takeWhile (fun s => decide (s ≠ k))

/-- Oracle for the outcome of each stage's `initializeXxx()` call:
`true` = the stage's `init` succeeds. -/
structure StageOutcomes where
  core : Bool
  window : Bool
  renderer : Bool
  input : Bool
  audio : Bool
  world : Bool
  network : Bool
  assets : Bool
deriving DecidableEq, Repr

/-- Read one stage's outcome out of a `StageOutcomes` oracle. -/
def stageOutcome (r : StageOutcomes) : Stage → Bool
  | .core => r.core
  | .window => r.window
  | .renderer => r.renderer
  | .input => r.input
  | .audio => r.audio
  | .world => r.world
  | .network => r.network
  | .assets => r.assets

/-- The GLFW window handle, reduced to the one observable the embedded code
reads: the `glfwWindowShouldClose` flag. -/
structure WindowState where
  shouldCloseFlag : Bool
deriving DecidableEq, Repr

/-- The `AshbornEngine` member state the claims touch: `config_`,
`initialized_`, `running_`, `paused_`, and the `window_` handle. -/
structure EngineState where
  config : EngineConfig
  initialized : Bool := false
  running : Bool := false
  paused : Bool := false
  window : Option WindowState := none
deriving DecidableEq, Repr

/-- Mirror of the `AshbornEngine` constructor (AshbornEngine.cpp:23-33):
stores the configuration, all flags start false, no handles. -/
def mkEngine (config : EngineConfig) : EngineState :=
  { config := config }

/-- Result of `AshbornEngine::initialize`: the returned
`std::expected<void, EngineError>`, the trace of `shutdownXxx` calls made
during rollback, the trace of stages whose `initializeXxx` ran and
succeeded, and the engine state on return. -/
structure InitResult where
  result : Except EngineError Unit
  shutdowns : List Stage
  inits : List Stage
  state : EngineState
deriving Repr

/-- Mirror of `AshbornEngine::initialize` (AshbornEngine.cpp:51-141).
Control flow is transcribed branch by branch: the `initialized_` guard, the
`validateEngineConfig` guard, then the eight stages.  Critical failures run
the literal rollback call sequences of the source; the audio failure path
only logs; the network stage runs only when the configured mode is not
`Offline` and its failure forces `config_.network.mode = Offline`. -/
def AshbornEngine.initializeEngine (st : EngineState) (r : StageOutcomes) : InitResult :=
  if st.initialized then
    ⟨.error .AlreadyInitialized, [], [], st⟩
  else
    match validateEngineConfig st.config with
    | .error _ => ⟨.error .InvalidConfiguration, [], [], st⟩
    | .ok _ =>
      if r.core = false then
        ⟨.error .SubsystemFailure, [], [], st⟩
      else if r.window = false then
        ⟨.error .SubsystemFailure, [.core], [.core], st⟩
      else
        -- createWindow succeeded: window_ now holds a live handle
        let stW : EngineState := { st with window := some ⟨false⟩ }
        if r.renderer = false then
          ⟨.error .SubsystemFailure, [.window, .core], [.core, .window],
            { stW with window := none }⟩
        else if r.input = false then
          ⟨.error .SubsystemFailure, [.renderer, .window, .core],
            [.core, .window, .renderer], { stW with window := none }⟩
        else
          -- audio is optional: failure is logged and bring-up continues
          let audioInits : List Stage := if r.audio then [.audio] else []
          if r.world = false then
            ⟨.error .SubsystemFailure, [.audio, .input, .renderer, .window, .core],
              [.core, .window, .renderer, .input] ++ audioInits,
              { stW with window := none }⟩
          else
            -- network runs only when not configured Offline; failure forces
            -- the configuration to Offline mode and bring-up continues
            let cfg' : EngineConfig :=
              if st.config.network.mode ≠ NetworkMode.Offline ∧ r.network = false then
                { st.config with network := { st.config.network with mode := .Offline } }
              else st.config
            let netInits : List Stage :=
              if st.config.network.mode ≠ NetworkMode.Offline ∧ r.network = true then
                [.network]
              else []
            if r.assets = false then
              ⟨.error .SubsystemFailure,
                [.network, .world, .audio, .input, .renderer, .window, .core],
                [.core, .window, .renderer, .input] ++ audioInits ++ [.world] ++ netInits,
                { stW with config := cfg', window := none }⟩
            else
              ⟨.ok (), [],
                [.core, .window, .renderer, .input] ++ audioInits ++ [.world]
                  ++ netInits ++ [.assets],
                { stW with config := cfg', initialized := true, running := true }⟩

/-- Result of `AshbornEngine::shutdown`: the returned expected, the trace of
`shutdownXxx` calls, and the engine state on return. -/
structure ShutdownResult where
  result : Except EngineError Unit
  shutdowns : List Stage
  state : EngineState
deriving Repr

/-- Mirror of `AshbornEngine::shutdown` (AshbornEngine.cpp:293-316): fails
`NotInitialized` when not initialized, otherwise tears every stage down in
reverse bring-up order (the tear-down helpers never fail), clears
`running_` and `initialized_`, and `cleanupWindow` clears the handle. -/
def AshbornEngine.shutdown (st : EngineState) : ShutdownResult :=
  if st.initialized = false then
    ⟨.error .NotInitialized, [], st⟩
  else
    ⟨.ok (), [.assets, .network, .world, .audio, .input, .renderer, .window, .core],
      { st with running := false, initialized := false, window := none }⟩

/-- Mirror of `struct FrameTiming` (Application.h:32-39); `timing_{}` is
zero-initialised by the `Application` constructor. -/
structure FrameTiming where
  delta_time : ℚ := 0
  fixed_delta_time : ℚ := 0
  time_scale : ℚ := 0
  total_time : ℚ := 0
  frame_count : Nat := 0
  interpolation : ℚ := 0
deriving DecidableEq, Repr

/-- The `Application` member state (Application.h:130-157) with the member
initialisers of the header: `running_ = paused_ = false`, `accumulator_ = 0`,
`target_fps_ = 0`, `fixed_timestep_ = 1/60`, `max_delta_time_ = 0.25`,
`time_scale_ = 1`, a 60-slot FPS ring zero-filled, write index 0. -/
structure AppState where
  engine : Option EngineState
  running : Bool := false
  paused : Bool := false
  timing : FrameTiming := {}
  accumulator : ℚ := 0
  target_fps : Nat := 0
  fixed_timestep : ℚ := 1 / 60
  max_delta_time : ℚ := 1 / 4
  time_scale : ℚ := 1
  fps_samples : List ℚ := List.replicate 60 0
  fps_sample_index : Nat := 0
deriving DecidableEq, Repr

/-- Mirror of the `Application` constructors (Application.cpp:25-43); the
`unique_ptr` overload accepts a null engine and only logs. -/
def mkApplication (engine : Option EngineState) : AppState :=
  { engine := engine }

/-- `FPS_SAMPLE_COUNT` (Application.h:152). -/
def FPS_SAMPLE_COUNT : Nat := 60

/-- Mirror of `Application::updateTiming` (Application.cpp:289-306): the
wall-clock difference is the external input `raw`; `delta_time` is the
scaled raw delta clamped to `max_delta_time_`, the total advances by it,
and the raw delta is written into the FPS ring at the current index, which
then advances circularly. -/
def Application.updateTiming (st : AppState) (raw : ℚ) : AppState :=
  let delta := min (raw * st.time_scale) st.max_delta_time
  { st with
    timing := { st.timing with
      delta_time := delta
      total_time := st.timing.total_time + delta }
    fps_samples := st.fps_samples.set st.fps_sample_index raw
    fps_sample_index := (st.fps_sample_index + 1) % FPS_SAMPLE_COUNT }

/-- Mirror of `Application::getFPS` (Application.cpp:265-270). -/
def Application.getFPS (st : AppState) : ℚ :=
  if 0 < st.timing.delta_time then 1 / st.timing.delta_time else 0

/-- Mirror of `Application::getAverageFPS` (Application.cpp:272-279):
`std::accumulate` over the 60 ring slots, divided by `FPS_SAMPLE_COUNT`. -/
def Application.getAverageFPS (st : AppState) : ℚ :=
  st.fps_samples.sum / (FPS_SAMPLE_COUNT : ℚ)

/-- Mirror of `Application::getFrameTime` (Application.cpp:281-283). -/
def Application.getFrameTime (st : AppState) : ℚ :=
  st.timing.delta_time * 1000

/-- Mirror of `Application::setTimeScale` (Application.cpp:239-243):
`time_scale_ = std::max(0.0, scale)`, copied into the timing snapshot. -/
def Application.setTimeScale (st : AppState) (scale : ℚ) : AppState :=
  { st with
    time_scale := max 0 scale
    timing := { st.timing with time_scale := max 0 scale } }

/-- Mirror of `Application::setTargetFPS` (Application.cpp:245-248). -/
def Application.setTargetFPS (st : AppState) (fps : Nat) : AppState :=
  { st with target_fps := fps }

/-- Mirror of `Application::setFixedTimestep` (Application.cpp:250-254):
clamped to at least one millisecond. -/
def Application.setFixedTimestep (st : AppState) (timestep : ℚ) : AppState :=
  { st with
    fixed_timestep := max (1 / 1000) timestep
    timing := { st.timing with fixed_delta_time := max (1 / 1000) timestep } }

/-- Mirror of `Application::setMaxDeltaTime` (Application.cpp:256-259):
clamped to at least one millisecond. -/
def Application.setMaxDeltaTime (st : AppState) (max_dt : ℚ) : AppState :=
  { st with max_delta_time := max (1 / 1000) max_dt }

/-- The `while (accumulator_ >= fixed_timestep_)` loop of
`Application::fixedUpdate` (Application.cpp:330-347).  Each iteration
invokes the fixed-update hook, subtracts the timestep and increments
`steps`; when `steps` exceeds 5 after an iteration the accumulator is
zeroed and the loop breaks.  The returned pair is (final accumulator,
final `steps` = number of hook invocations).  The loop terminates because
`steps` grows each iteration and the loop breaks once it passes 5. -/
def fixedLoopAux (fixed : ℚ) (acc : ℚ) (steps : Nat) : ℚ × Nat :=
  if fixed ≤ acc then
    if 5 < steps + 1 then (0, steps + 1)
    else fixedLoopAux fixed (acc - fixed) (steps + 1)
  else (acc, steps)
termination_by 6 - steps
decreasing_by
  rename_i h2
  simp only [not_lt] at h2
  omega

/-- Mirror of `Application::fixedUpdate` (Application.cpp:325-351): the
accumulator gains `delta_time`, the catch-up loop runs, and the
interpolation factor is the leftover accumulator over the fixed timestep.
Also returns how many times the fixed-update hook was invoked. -/
def Application.fixedUpdate (st : AppState) : AppState × Nat :=
  let acc0 := st.accumulator + st.timing.delta_time
  let res := fixedLoopAux st.fixed_timestep acc0 0
  ({ st with
      accumulator := res.1
      timing := { st.timing with interpolation := res.1 / st.fixed_timestep } },
    res.2)

/-- Which hooks fired during one `Application::runFrame` call. -/
structure FrameEvents where
  fixedInvocations : Nat
  updateCalled : Bool
  renderCalled : Bool
deriving DecidableEq, Repr

/-- Mirror of `Application::runFrame` (Application.cpp:161-199): fail
`NotInitialized` when the engine is null or not initialized; otherwise
update timing, poll input, and unless paused run the fixed-step loop, the
variable-step hook, render/GUI/present; finally increment the frame
counter.  `raw` is the wall-clock delta read by `updateTiming`. -/
def Application.runFrame (st : AppState) (raw : ℚ) :
    Except ApplicationError (AppState × FrameEvents) :=
  match st.engine with
  | none => .error .NotInitialized
  | some eng =>
    if eng.initialized = false then .error .NotInitialized
    else
      let st1 := Application.updateTiming st raw
      -- processInput: glfwPollEvents, no engine/app state change modelled.
      -- The paused_ member is untouched by updateTiming, so the source's
      -- post-updateTiming read of paused_ sees the entry value of paused_.
      if st.paused = false then
        let fr := Application.fixedUpdate st1
        -- update(delta): on_update(timing_); render: on_render(timing_);
        -- on_gui and presentFrame have no effect on the embedded state
        .ok ({ fr.1 with
                timing := { fr.1.timing with
                  frame_count := fr.1.timing.frame_count + 1 } },
             FrameEvents.mk fr.2 true true)
      else
        .ok ({ st1 with
                timing := { st1.timing with
                  frame_count := st1.timing.frame_count + 1 } },
             FrameEvents.mk 0 false false)

/-- A fault that aborts execution: dereferencing the engine pointer while
it is null. -/
inductive Fault
  | nullDeref
deriving DecidableEq, Repr

/-- Mirror of `Application::shouldClose` (Application.cpp:201-211): the
`!running_ || !engine_->isRunning()` test short-circuits, so the engine is
dereferenced only when `running_` is true; when a window exists its GLFW
close flag is returned, otherwise false. -/
def Application.shouldClose (st : AppState) : Except Fault Bool :=
  if st.running = false then .ok true
  else
    match st.engine with
    | none => .error .nullDeref
    | some eng =>
      if eng.running = false then .ok true
      else
        match eng.window with
        | some w => .ok w.shouldCloseFlag
        | none => .ok false

/-- Mirror of `Application::requestExit` (Application.cpp:217-226): clears
`running_`; the `engine_->requestExit()` call is guarded by a null check,
but the following `engine_->getWindow()` dereferences the engine pointer
unconditionally; when a window exists its GLFW close flag is set. -/
def Application.requestExit (st : AppState) : Except Fault AppState :=
  let st1 := { st with running := false }
  let st2 :=
    { st1 with engine := st1.engine.map (fun (e : EngineState) => { e with running := false }) }
  match st2.engine with
  | none => .error .nullDeref
  | some eng =>
    match eng.window with
    | some _ =>
      .ok { st2 with engine := some { eng with window := some ⟨true⟩ } }
    | none => .ok st2

/-- Mirror of `Application::initialize` (Application.cpp:111-159): fail
`NotInitialized` on a null engine; run `engine_->initialize()`, mapping its
failure to `EngineInitFailed`; the GLFW callback registration that follows
has no effect on the embedded state. -/
def Application.initializeApp (st : AppState) (r : StageOutcomes) :
    Except ApplicationError AppState :=
  match st.engine with
  | none => .error .NotInitialized
  | some eng =>
    let res := AshbornEngine.initializeEngine eng r
    match res.result with
    | .error _ => .error .EngineInitFailed
    | .ok _ => .ok { st with engine := some res.state }

/-- One scheduled iteration of the `while (!shouldClose())` loop in
`Application::run`: `none` means this `runFrame()` call succeeds, `some e`
means it returns the failure `e`.  The end of the list marks the frame at
which `shouldClose()` becomes true.  The `runFrame` outcomes are an oracle
here because `run()` treats `runFrame()` as opaque: the claims about `run`
concern only how it reacts to a failing frame. -/
def runLoop : List (Option ApplicationError) → Except ApplicationError Unit × Nat
  | [] => (.ok (), 0)
  | some e :: _ => (.error e, 1)
  | none :: rest =>
    let r := runLoop rest
    (r.1, r.2 + 1)

/-- Observable events of one `Application::run` / `runApplication` call:
how many `runFrame()` calls executed, whether the `on_shutdown` callback
fired, and whether `AshbornEngine::shutdown` was invoked (directly or from
the engine destructor). -/
structure RunTrace where
  framesExecuted : Nat
  onShutdownCalled : Bool
  engineShutdownCalled : Bool
deriving DecidableEq, Repr

/-- Mirror of `Application::run` (Application.cpp:59-105): initialize the
engine if needed (propagating failure), fail `AlreadyRunning` when already
running, set `running_`, fire `on_start`, iterate `runFrame()`; a failing
frame clears `running_` and returns that failure at once, skipping both
`on_shutdown` and `engine_->shutdown()`; a clean exit fires `on_shutdown`,
clears `running_` and shuts the engine down (mapping a shutdown failure to
`Unknown`).  The first statement dereferences `engine_` with no null
check. -/
def Application.run (st0 : AppState) (r : StageOutcomes)
    (frames : List (Option ApplicationError)) :
    Except Fault (Except ApplicationError Unit × AppState × RunTrace) :=
  match st0.engine with
  | none => .error .nullDeref
  | some eng0 =>
    let initRes : Except ApplicationError AppState :=
      if eng0.initialized = false then Application.initializeApp st0 r
      else .ok st0
    match initRes with
    | .error e => .ok (.error e, st0, ⟨0, false, false⟩)
    | .ok st1 =>
      if st1.running then .ok (.error .AlreadyRunning, st1, ⟨0, false, false⟩)
      else
        let st2 := { st1 with running := true }
        -- on_start fires here
        let loopRes := runLoop frames
        match loopRes.1 with
        | .error e =>
          .ok (.error e, { st2 with running := false }, ⟨loopRes.2, false, false⟩)
        | .ok _ =>
          -- on_shutdown fires, running_ clears, engine shuts down
          let st3 := { st2 with running := false }
          match st3.engine with
          | none => .error .nullDeref
          | some eng1 =>
            let sres := AshbornEngine.shutdown eng1
            let st4 := { st3 with engine := some sres.state }
            match sres.result with
            | .error _ => .ok (.error .Unknown, st4, ⟨loopRes.2, true, true⟩)
            | .ok _ => .ok (.ok (), st4, ⟨loopRes.2, true, true⟩)

/-- Mirror of `runApplication` (Application.cpp:402-437) together with the
destructor semantics that fire when `app` leaves scope: `Logger::init`
failure returns 1; a failing `app.run()` returns 1 and a clean one 0; on
scope exit `Application::~Application` fires `on_shutdown` only when still
`running_`, and `AshbornEngine::~AshbornEngine` calls `shutdown()` when the
engine is still initialized (AshbornEngine.cpp:35-45).  A null-engine
dereference would abort the process abnormally (exit status 139). -/
def runApplication (config : EngineConfig) (r : StageOutcomes)
    (frames : List (Option ApplicationError)) (loggerOk : Bool) : Nat × RunTrace :=
  if loggerOk = false then (1, ⟨0, false, false⟩)
  else
    let app := mkApplication (some (mkEngine config))
    match Application.run app r frames with
    | .error .nullDeref => (139, ⟨0, false, false⟩)
    | .ok (res, stAfter, tr) =>
      let dtorOnShutdown := stAfter.running
      let dtorEngineShutdown :=
        match stAfter.engine with
        | some e => e.initialized
        | none => false
      let tr' : RunTrace :=
        ⟨tr.framesExecuted,
          tr.onShutdownCalled || dtorOnShutdown,
          tr.engineShutdownCalled || dtorEngineShutdown⟩
      match res with
      | .error _ => (1, tr')
      | .ok _ => (0, tr')

/-- Extract the number of fixed-update hook invocations out of a
`runFrame` result (0 when the frame failed). -/
def fixedCountOf (res : Except ApplicationError (AppState × FrameEvents)) : Nat :=
  match res with
  | .ok p => p.2.fixedInvocations
  | .error _ => 0

/-- Extract the post-frame state out of a `runFrame` result (`none` when
the frame failed). -/
def stateOf (res : Except ApplicationError (AppState × FrameEvents)) :
    Option AppState :=
  match res with
  | .ok p => some p.1
  | .error _ => none

/-- A number in `[2^k, 2^(k+1))` has bit `k` set. -/
lemma testBit_of_pow_le_lt {k x : Nat} (h1 : 2 ^ k ≤ x) (h2 : x < 2 ^ (k + 1)) :
    x.testBit k = true := by
  rw [Nat.testBit_to_div_mod]
  have hdiv : x / 2 ^ k = 1 := by
    apply Nat.div_eq_of_lt_le
    · simpa using h1
    · have : (1 + 1) * 2 ^ k = 2 ^ (k + 1) := by ring
      omega
  simp [hdiv]

/-- The `x & (x-1) == 0` trick of `validateEngineConfig` detects exactly
the powers of two among the nonzero naturals. -/
lemma land_pred_eq_zero_iff {c : Nat} (hc : c ≠ 0) :
    c &&& (c - 1) = 0 ↔ ∃ k, c = 2 ^ k := by
  constructor
  · intro h
    refine ⟨Nat.log 2 c, ?_⟩
    have hle : 2 ^ Nat.log 2 c ≤ c := Nat.pow_log_le_self 2 hc
    have hlt : c < 2 ^ (Nat.log 2 c + 1) := Nat.lt_pow_succ_log_self (by norm_num) c
    by_contra hne
    have hgt : 2 ^ Nat.log 2 c < c := lt_of_le_of_ne hle (fun e => hne e.symm)
    have h1 : c.testBit (Nat.log 2 c) = true := testBit_of_pow_le_lt hle hlt
    have h2 : (c - 1).testBit (Nat.log 2 c) = true := by
      apply testBit_of_pow_le_lt <;> omega
    have h3 : (c &&& (c - 1)).testBit (Nat.log 2 c) = true := by
      rw [Nat.testBit_land, h1, h2]; rfl
    rw [h, Nat.zero_testBit] at h3
    exact Bool.false_ne_true h3
  · rintro ⟨k, rfl⟩
    apply Nat.eq_of_testBit_eq
    intro i
    rw [Nat.testBit_land, Nat.testBit_two_pow, Nat.testBit_two_pow_sub_one,
      Nat.zero_testBit]
    by_cases hik : k = i <;> simp [hik]

/-- Behaviour of the fixed-step catch-up loop, for any entry point with
`steps ≤ 5` (the only entry points the code uses): the final step count is
at most 6 and at least the entry count; reaching 6 means the clamp fired
and zeroed the accumulator; and with a positive timestep the accumulator
never grows. -/
lemma fixedLoopAux_spec (fixed : ℚ) :
    ∀ n steps acc, 6 - steps ≤ n → steps ≤ 5 →
      (fixedLoopAux fixed acc steps).2 ≤ 6 ∧
      ((fixedLoopAux fixed acc steps).2 = 6 → (fixedLoopAux fixed acc steps).1 = 0) ∧
      (0 < fixed → (fixedLoopAux fixed acc steps).1 ≤ acc) ∧
      steps ≤ (fixedLoopAux fixed acc steps).2 := by
  intro n
  induction n with
  | zero => intro steps acc h1 h2; omega
  | succ n ih =>
    intro steps acc h1 h2
    rw [fixedLoopAux]
    split
    · rename_i hge
      split
      · rename_i h5
        refine ⟨by omega, fun _ => rfl, fun hf => ?_, by omega⟩
        show (0 : ℚ) ≤ acc
        linarith
      · rename_i h5
        obtain ⟨ha, hb, hc, hd⟩ := ih (steps + 1) (acc - fixed) (by omega) (by omega)
        exact ⟨ha, hb, fun hf => by have := hc hf; linarith, by omega⟩
    · rename_i hlt
      exact ⟨by omega, by omega, fun _ => le_refl acc, le_refl steps⟩

/-- When the accumulator is already below the timestep the loop exits at
once, leaving both the accumulator and the step count untouched. -/
lemma fixedLoopAux_of_lt (fixed acc : ℚ) (steps : Nat) (h : acc < fixed) :
    fixedLoopAux fixed acc steps = (acc, steps) := by
  rw [fixedLoopAux]
  simp [not_le.mpr h]

/-- A run schedule with `n` clean frames and then a failing frame makes the
loop report that failure after exactly `n + 1` executed frames, whatever
comes later in the schedule. -/
lemma runLoop_replicate_fail (n : Nat) (e : ApplicationError)
    (rest : List (Option ApplicationError)) :
    runLoop (List.replicate n none ++ some e :: rest) = (.error e, n + 1) := by
  induction n with
  | zero => simp [runLoop]
  | succ n ih => simp [List.replicate_succ, runLoop, ih]

/-- Stage-outcome oracle in which every subsystem `init` succeeds. -/
def rAllOk : StageOutcomes := ⟨true, true, true, true, true, true, true, true⟩

/-- Stage-outcome oracle in which only the renderer fails. -/
def rFailRenderer : StageOutcomes := ⟨true, true, false, true, true, true, true, true⟩

/-- Stage-outcome oracle in which the two optional stages (audio, network)
fail and every critical stage succeeds. -/
def rOptFail : StageOutcomes := ⟨true, true, true, true, false, true, false, true⟩

/-- A configuration whose network mode is not `Offline`. -/
def cfgNet : EngineConfig := { network := { mode := .P2P_Host } }

/-- A structurally invalid configuration: zero window width. -/
def cfgBadWidth : EngineConfig := { window := { width := 0 } }

/-- An engine that completed bring-up: initialized, running, live window. -/
def engReady : EngineState :=
  { config := {}, initialized := true, running := true, window := some ⟨false⟩ }

/-- An application holding an initialized engine, with the constructor's
defaults everywhere else. -/
def appReady : AppState := mkApplication (some engReady)

/-- `appReady` after `setTimeScale(0)`. -/
def appTS0 : AppState := Application.setTimeScale appReady 0

/-- Claim C8: calling `AshbornEngine::shutdown` on an engine that is not
initialized — in particular a second call after a successful shutdown —
fails with `NotInitialized`, performs no tear-down call, and leaves the
state unchanged; while a first shutdown on an initialized engine
succeeds. -/
theorem claim_C8_shutdown_idempotence (st : EngineState) :
    (st.initialized = false →
      AshbornEngine.shutdown st = ⟨.error .NotInitialized, [], st⟩) ∧
    (st.initialized = true →
      (AshbornEngine.shutdown st).result = .ok () ∧
      AshbornEngine.shutdown (AshbornEngine.shutdown st).state =
        ⟨.error .NotInitialized, [], (AshbornEngine.shutdown st).state⟩) := by
  constructor
  · intro h
    rw [AshbornEngine.shutdown, if_pos h]
  · intro h
    have h1 : AshbornEngine.shutdown st =
        ⟨.ok (), [.assets, .network, .world, .audio, .input, .renderer, .window, .core],
          { st with running := false, initialized := false, window := none }⟩ := by
      rw [AshbornEngine.shutdown, if_neg (by simp [h])]
    rw [h1]
    exact ⟨rfl, by rw [AshbornEngine.shutdown, if_pos rfl]⟩

/-- Claim C8 witness: instantiated on the fully-initialized engine
`engReady`: the first shutdown succeeds and the second fails cleanly with
`NotInitialized` and an empty tear-down trace. -/
theorem claim_C8_shutdown_idempotence_witness :
    engReady.initialized = true ∧
    (AshbornEngine.shutdown engReady).result = .ok () ∧
    AshbornEngine.shutdown (AshbornEngine.shutdown engReady).state =
      ⟨.error .NotInitialized, [], (AshbornEngine.shutdown engReady).state⟩ :=
  ⟨rfl, (claim_C8_shutdown_idempotence engReady).2 rfl⟩

/-- Claim C6: `AshbornEngine::initialize` fails `AlreadyInitialized` on an
initialized engine; on a configuration with a non-positive window
dimension or a non-power-of-two chunk size it fails
`InvalidConfiguration` with no stage brought up, no stage shut down, and
the engine state unchanged. -/
theorem claim_C6_validation (st : EngineState) (r : StageOutcomes) :
    (st.initialized = true →
      AshbornEngine.initializeEngine st r = ⟨.error .AlreadyInitialized, [], [], st⟩) ∧
    (st.initialized = false →
      (st.config.window.width ≤ 0 ∨ st.config.window.height ≤ 0 ∨
        ¬ ∃ k, st.config.world.chunk_size = 2 ^ k) →
      AshbornEngine.initializeEngine st r = ⟨.error .InvalidConfiguration, [], [], st⟩) := by
  constructor
  · intro h
    rw [AshbornEngine.initializeEngine, if_pos h]
  · intro h hbad
    have hval : validateEngineConfig st.config = .error .InvalidConfiguration := by
      rw [validateEngineConfig]
      rcases hbad with hw | hh | hc
      · rw [if_pos (Or.inl hw)]
      · rw [if_pos (Or.inr hh)]
      · by_cases hdim : st.config.window.width ≤ 0 ∨ st.config.window.height ≤ 0
        · rw [if_pos hdim]
        · rw [if_neg hdim, if_pos ?_]
          by_cases hz : st.config.world.chunk_size = 0
          · exact Or.inl hz
          · refine Or.inr fun hland => ?_
            exact hc ((land_pred_eq_zero_iff hz).mp hland)
    rw [AshbornEngine.initializeEngine, if_neg (by simp [h]), hval]

/-- Claim C6 witness: a zero window width makes `initialize` fail
`InvalidConfiguration` with empty bring-up and tear-down traces and an
unchanged engine state. -/
theorem claim_C6_validation_witness :
    AshbornEngine.initializeEngine (mkEngine cfgBadWidth) rAllOk =
      ⟨.error .InvalidConfiguration, [], [], mkEngine cfgBadWidth⟩ :=
  (claim_C6_validation (mkEngine cfgBadWidth) rAllOk).2 rfl (Or.inl (by decide))

/-- Claim C9: `updateTiming` computes
`delta_time = min(raw_delta * time_scale, max_delta_time)`; `setTimeScale`
clamps the scale to be at least 0, so with a non-negative raw delta and
non-negative cap every frame's `delta_time` lies in `[0, max_delta_time]`. -/
theorem claim_C9_delta_time_bounds (st : AppState) (s raw : ℚ)
    (hraw : 0 ≤ raw) (hmax : 0 ≤ st.max_delta_time) :
    (Application.setTimeScale st s).time_scale = max 0 s ∧
    (Application.updateTiming (Application.setTimeScale st s) raw).timing.delta_time =
      min (raw * (Application.setTimeScale st s).time_scale) st.max_delta_time ∧
    0 ≤ (Application.updateTiming (Application.setTimeScale st s) raw).timing.delta_time ∧
    (Application.updateTiming (Application.setTimeScale st s) raw).timing.delta_time ≤
      st.max_delta_time := by
  refine ⟨rfl, rfl, ?_, ?_⟩
  · exact le_min (mul_nonneg hraw (le_max_left 0 s)) hmax
  · exact min_le_right _ _

/-- Claim C9 witness: on `appReady` with a negative requested scale and a
raw delta of 1/100 s, the computed delta is clamped into
`[0, max_delta_time]`. -/
theorem claim_C9_delta_time_bounds_witness :
    0 ≤ (Application.updateTiming (Application.setTimeScale appReady (-2))
          (1 / 100)).timing.delta_time ∧
    (Application.updateTiming (Application.setTimeScale appReady (-2))
          (1 / 100)).timing.delta_time ≤ appReady.max_delta_time := by
  have h := claim_C9_delta_time_bounds appReady (-2) (1 / 100)
    (by norm_num) (by norm_num [appReady, mkApplication])
  exact ⟨h.2.2.1, h.2.2.2⟩

/-- Claim C10: the `Application` constructor accepts a null engine; under a
null engine `runFrame` and `initialize` detect it and return
`NotInitialized`, but `requestExit` dereferences the engine
unconditionally after its guarded `engine_->requestExit()` call, and
`shouldClose` dereferences it (whenever `running_` lets evaluation reach
the dereference); with a non-null engine neither faults — so the two are
safe only under the precondition that the engine pointer is non-null. -/
theorem claim_C10_null_engine :
    (mkApplication none).engine = none ∧
    (∀ (st : AppState) (raw : ℚ), st.engine = none →
      Application.runFrame st raw = .error .NotInitialized) ∧
    (∀ (st : AppState) (r : StageOutcomes), st.engine = none →
      Application.initializeApp st r = .error .NotInitialized) ∧
    (∀ st : AppState, st.engine = none →
      Application.requestExit st = .error .nullDeref) ∧
    (∀ st : AppState, st.engine = none → st.running = true →
      Application.shouldClose st = .error .nullDeref) ∧
    (∀ (st : AppState) (eng : EngineState), st.engine = some eng →
      (Application.requestExit st).isOk = true ∧
      (Application.shouldClose st).isOk = true) := by
  refine ⟨rfl, ?_, ?_, ?_, ?_, ?_⟩
  · intro st raw h
    rw [Application.runFrame, h]
  · intro st r h
    rw [Application.initializeApp, h]
  · intro st h
    rw [Application.requestExit]
    simp [h]
  · intro st h hrun
    rw [Application.shouldClose, if_neg (by simp [hrun]), h]
  · intro st eng h
    constructor
    · rw [Application.requestExit]
      simp only [h, Option.map_some]
      cases hw : eng.window <;> simp [hw, Except.isOk, Except.toBool]
    · rw [Application.shouldClose]
      by_cases hr : st.running = false
      · rw [if_pos hr]; rfl
      · rw [if_neg hr, h]
        by_cases he : eng.running = false
        · simp [he, Except.isOk, Except.toBool]
        · simp only [he]
          cases hw : eng.window <;> simp [hw, he, Except.isOk, Except.toBool]

/-- Claim C10 witness: with a concretely null engine, `runFrame` and
`initialize` report `NotInitialized`, `requestExit` always faults, a
running `shouldClose` faults; with the non-null `engReady` engine
`requestExit` is fault-free. -/
theorem claim_C10_null_engine_witness :
    Application.runFrame (mkApplication none) 1 = .error .NotInitialized ∧
    Application.initializeApp (mkApplication none) rAllOk = .error .NotInitialized ∧
    Application.requestExit (mkApplication none) = .error .nullDeref ∧
    Application.shouldClose { mkApplication none with running := true } =
      .error .nullDeref ∧
    (Application.requestExit appReady).isOk = true :=
  ⟨claim_C10_null_engine.2.1 _ 1 rfl,
   claim_C10_null_engine.2.2.1 _ rAllOk rfl,
   claim_C10_null_engine.2.2.2.1 _ rfl,
   claim_C10_null_engine.2.2.2.2.1 _ rfl rfl,
   (claim_C10_null_engine.2.2.2.2.2 appReady engReady rfl).1⟩

/-- Stage `k` is the first failing critical stage of the oracle `r`:
`k` is critical, its `init` fails, and every critical stage before it in
bring-up order succeeds (optional stages before it may do anything). -/
def firstCriticalFailureAt (r : StageOutcomes) (k : Stage) : Prop :=
  k.isCritical = true ∧ stageOutcome r k = false ∧
  ∀ s ∈ stagesBefore k, s.isCritical = true → stageOutcome r s = true

instance (r : StageOutcomes) (k : Stage) : Decidable (firstCriticalFailureAt r k) := by
  unfold firstCriticalFailureAt
  infer_instance

/-- Claim C1: when the first failing critical stage during
`AshbornEngine::initialize` is `k`, the rollback shuts down exactly the
stages before `k`, each once, in strict reverse bring-up order, no stage
at or after `k`, and `initialize` returns the failure (surfaced as
`SubsystemFailure`). -/
theorem claim_C1_rollback (st : EngineState) (r : StageOutcomes) (k : Stage)
    (hinit : st.initialized = false)
    (hval : validateEngineConfig st.config = .ok ())
    (hk : firstCriticalFailureAt r k) :
    (AshbornEngine.initializeEngine st r).result = .error .SubsystemFailure ∧
    (AshbornEngine.initializeEngine st r).shutdowns = (stagesBefore k).reverse := by
  obtain ⟨hcrit, hfail, hbefore⟩ := hk
  cases k with
  | audio => simp [Stage.isCritical] at hcrit
  | network => simp [Stage.isCritical] at hcrit
  | core =>
    simp only [stageOutcome] at hfail
    rw [AshbornEngine.initializeEngine, if_neg (by simp [hinit]), hval]
    simp [hfail, stagesBefore, stageOrder]
  | window =>
    have h1 : r.core = true := by
      simpa [stageOutcome] using hbefore .core (by decide) (by decide)
    simp only [stageOutcome] at hfail
    rw [AshbornEngine.initializeEngine, if_neg (by simp [hinit]), hval]
    simp [hfail, h1, stagesBefore, stageOrder]
  | renderer =>
    have h1 : r.core = true := by
      simpa [stageOutcome] using hbefore .core (by decide) (by decide)
    have h2 : r.window = true := by
      simpa [stageOutcome] using hbefore .window (by decide) (by decide)
    simp only [stageOutcome] at hfail
    rw [AshbornEngine.initializeEngine, if_neg (by simp [hinit]), hval]
    simp [hfail, h1, h2, stagesBefore, stageOrder]
  | input =>
    have h1 : r.core = true := by
      simpa [stageOutcome] using hbefore .core (by decide) (by decide)
    have h2 : r.window = true := by
      simpa [stageOutcome] using hbefore .window (by decide) (by decide)
    have h3 : r.renderer = true := by
      simpa [stageOutcome] using hbefore .renderer (by decide) (by decide)
    simp only [stageOutcome] at hfail
    rw [AshbornEngine.initializeEngine, if_neg (by simp [hinit]), hval]
    simp [hfail, h1, h2, h3, stagesBefore, stageOrder]
  | world =>
    have h1 : r.core = true := by
      simpa [stageOutcome] using hbefore .core (by decide) (by decide)
    have h2 : r.window = true := by
      simpa [stageOutcome] using hbefore .window (by decide) (by decide)
    have h3 : r.renderer = true := by
      simpa [stageOutcome] using hbefore .renderer (by decide) (by decide)
    have h4 : r.input = true := by
      simpa [stageOutcome] using hbefore .input (by decide) (by decide)
    simp only [stageOutcome] at hfail
    rw [AshbornEngine.initializeEngine, if_neg (by simp [hinit]), hval]
    simp [hfail, h1, h2, h3, h4, stagesBefore, stageOrder]
  | assets =>
    have h1 : r.core = true := by
      simpa [stageOutcome] using hbefore .core (by decide) (by decide)
    have h2 : r.window = true := by
      simpa [stageOutcome] using hbefore .window (by decide) (by decide)
    have h3 : r.renderer = true := by
      simpa [stageOutcome] using hbefore .renderer (by decide) (by decide)
    have h4 : r.input = true := by
      simpa [stageOutcome] using hbefore .input (by decide) (by decide)
    have h5 : r.world = true := by
      simpa [stageOutcome] using hbefore .world (by decide) (by decide)
    simp only [stageOutcome] at hfail
    rw [AshbornEngine.initializeEngine, if_neg (by simp [hinit]), hval]
    simp [hfail, h1, h2, h3, h4, h5, stagesBefore, stageOrder]

/-- Claim C1 witness: the spec's own scenario — the critical renderer stage
fails, so the rollback is `shutdownWindow`, `shutdownCore` in that order
and `initialize` returns the failure. -/
theorem claim_C1_rollback_witness :
    (AshbornEngine.initializeEngine (mkEngine {}) rFailRenderer).result =
      .error .SubsystemFailure ∧
    (AshbornEngine.initializeEngine (mkEngine {}) rFailRenderer).shutdowns =
      (stagesBefore .renderer).reverse :=
  claim_C1_rollback (mkEngine {}) rFailRenderer .renderer rfl rfl (by decide)

/-- Claim C7: with every critical stage succeeding, an optional stage's
failure does not fail bring-up: an audio failure still yields success with
`initialized_` set and audio absent from the successfully-initialized
stages; a network failure (when the mode is not `Offline`, so the stage
runs) additionally forces the configuration's network mode to `Offline`. -/
theorem claim_C7_optional_stages (st : EngineState) (r : StageOutcomes)
    (hinit : st.initialized = false)
    (hval : validateEngineConfig st.config = .ok ())
    (hco : r.core = true) (hw : r.window = true) (hre : r.renderer = true)
    (hin : r.input = true) (hwo : r.world = true) (has : r.assets = true) :
    (r.audio = false →
      (AshbornEngine.initializeEngine st r).result = .ok () ∧
      (AshbornEngine.initializeEngine st r).state.initialized = true ∧
      Stage.audio ∉ (AshbornEngine.initializeEngine st r).inits) ∧
    (st.config.network.mode ≠ NetworkMode.Offline → r.network = false →
      (AshbornEngine.initializeEngine st r).result = .ok () ∧
      (AshbornEngine.initializeEngine st r).state.initialized = true ∧
      Stage.network ∉ (AshbornEngine.initializeEngine st r).inits ∧
      (AshbornEngine.initializeEngine st r).state.config.network.mode =
        NetworkMode.Offline) := by
  rw [AshbornEngine.initializeEngine, if_neg (by simp [hinit]), hval]
  simp only [hco, hw, hre, hin, hwo, has]
  constructor
  · intro haud
    simp only [haud]
    refine ⟨by simp, by simp, ?_⟩
    by_cases hnet : st.config.network.mode ≠ NetworkMode.Offline ∧ r.network = true
    · simp [hnet]
    · simp [hnet]
  · intro hm hn
    have hcond : st.config.network.mode ≠ NetworkMode.Offline ∧ r.network = false :=
      ⟨hm, hn⟩
    have hcond2 : ¬(st.config.network.mode ≠ NetworkMode.Offline ∧ r.network = true) := by
      simp [hn]
    refine ⟨by simp, by simp, ?_, ?_⟩
    · simp only [if_neg hcond2]
      by_cases haud : r.audio <;> simp [haud]
    · simp [if_pos hcond]

/-- Claim C7 witness: a non-offline configuration with audio and network
both failing and every critical stage succeeding: bring-up succeeds, the
engine is initialized, neither optional stage is among the initialized
ones, and the configuration has been forced offline. -/
theorem claim_C7_optional_stages_witness :
    (AshbornEngine.initializeEngine (mkEngine cfgNet) rOptFail).result = .ok () ∧
    (AshbornEngine.initializeEngine (mkEngine cfgNet) rOptFail).state.initialized = true ∧
    Stage.audio ∉ (AshbornEngine.initializeEngine (mkEngine cfgNet) rOptFail).inits ∧
    Stage.network ∉ (AshbornEngine.initializeEngine (mkEngine cfgNet) rOptFail).inits ∧
    (AshbornEngine.initializeEngine (mkEngine cfgNet) rOptFail).state.config.network.mode =
      NetworkMode.Offline := by
  have h := claim_C7_optional_stages (mkEngine cfgNet) rOptFail
    rfl rfl rfl rfl rfl rfl rfl rfl
  have h1 := h.1 rfl
  have h2 := h.2 (by decide) rfl
  exact ⟨h1.1, h1.2.1, h1.2.2, h2.2.2.1, h2.2.2.2⟩

/-- One `Application::fixedUpdate` call invokes the hook at most 6 times;
hitting 6 means the clamp fired and zeroed the accumulator; and with a
positive timestep the accumulator never exceeds its pre-loop value. -/
lemma fixedUpdate_spec (st : AppState) :
    (Application.fixedUpdate st).2 ≤ 6 ∧
    ((Application.fixedUpdate st).2 = 6 →
      (Application.fixedUpdate st).1.accumulator = 0) ∧
    (0 < st.fixed_timestep →
      (Application.fixedUpdate st).1.accumulator ≤
        st.accumulator + st.timing.delta_time) := by
  have h := fixedLoopAux_spec st.fixed_timestep 6 0
    (st.accumulator + st.timing.delta_time) (by omega) (by omega)
  exact ⟨h.1, fun he => h.2.1 he, fun hf => h.2.2.1 hf⟩

/-- Canonical form of a `runFrame` call on a present, initialized engine:
the paused branch skips the fixed/variable/render phase, the unpaused
branch runs `fixedUpdate` after `updateTiming`; both bump the frame
counter. -/
lemma runFrame_eq_of_some (st : AppState) (raw : ℚ) (eng : EngineState)
    (hengine : st.engine = some eng) (hi : eng.initialized = true) :
    Application.runFrame st raw =
      if st.paused = false then
        .ok ({ (Application.fixedUpdate (Application.updateTiming st raw)).1 with
                timing := { (Application.fixedUpdate
                    (Application.updateTiming st raw)).1.timing with
                  frame_count := (Application.fixedUpdate
                    (Application.updateTiming st raw)).1.timing.frame_count + 1 } },
             ⟨(Application.fixedUpdate (Application.updateTiming st raw)).2,
               true, true⟩)
      else
        .ok ({ Application.updateTiming st raw with
                timing := { (Application.updateTiming st raw).timing with
                  frame_count :=
                    (Application.updateTiming st raw).timing.frame_count + 1 } },
             ⟨0, false, false⟩) := by
  rw [Application.runFrame, hengine]
  simp [hi]

/-- The catch-up loop on an accumulator holding seven fixed steps: six
invocations happen, then the clamp zeroes the accumulator. -/
lemma fixedLoopAux_seven_steps : fixedLoopAux (1 / 60) (7 / 60) 0 = (0, 6) := by
  rw [fixedLoopAux]; norm_num
  rw [fixedLoopAux]; norm_num
  rw [fixedLoopAux]; norm_num
  rw [fixedLoopAux]; norm_num
  rw [fixedLoopAux]; norm_num
  rw [fixedLoopAux]; norm_num

/-- Claim C2 counterexample: on a fully-initialized application whose
accumulator is empty, a raw frame delta of 7/60 s (seven fixed steps'
worth, scale 1, below the 0.25 s cap) makes one `runFrame` call invoke the
fixed-update hook 6 times — the hook fires before the `steps > 5` test, so
"at most 5 invocations" is false. -/
theorem claim_C2_clamp_counterexample :
    fixedCountOf (Application.runFrame appReady (7 / 60)) = 6 ∧
    ¬ fixedCountOf (Application.runFrame appReady (7 / 60)) ≤ 5 := by
  have h := runFrame_eq_of_some appReady (7 / 60) engReady rfl rfl
  rw [if_pos (show appReady.paused = false from rfl)] at h
  rw [h]
  have hft : (Application.updateTiming appReady (7 / 60)).fixed_timestep = 1 / 60 := rfl
  have hacc0 : (Application.updateTiming appReady (7 / 60)).accumulator = 0 := rfl
  have hdt : (Application.updateTiming appReady (7 / 60)).timing.delta_time = 7 / 60 := by
    simp only [Application.updateTiming]
    norm_num [appReady, mkApplication, min_def]
  simp only [fixedCountOf, Application.fixedUpdate, hft, hacc0, hdt]
  norm_num [fixedLoopAux_seven_steps]

/-- Claim C2 amended: every single `runFrame` call invokes the
fixed-update hook at most 6 times, and whenever the step clamp triggers
(6 invocations in one frame) the accumulator is set to 0. -/
theorem claim_C2_step_clamp (st st' : AppState) (ev : FrameEvents) (raw : ℚ)
    (h : Application.runFrame st raw = .ok (st', ev)) :
    ev.fixedInvocations ≤ 6 ∧ (ev.fixedInvocations = 6 → st'.accumulator = 0) := by
  cases hengine : st.engine with
  | none =>
    rw [Application.runFrame, hengine] at h
    exact absurd h (by simp)
  | some eng =>
    cases hi : eng.initialized with
    | false =>
      rw [Application.runFrame, hengine] at h
      simp [hi] at h
    | true =>
      rw [runFrame_eq_of_some st raw eng hengine hi] at h
      by_cases hp : st.paused = false
      · rw [if_pos hp] at h
        simp only [Except.ok.injEq, Prod.mk.injEq] at h
        obtain ⟨hst, hev⟩ := h
        have hspec := fixedUpdate_spec (Application.updateTiming st raw)
        rw [← hev]
        refine ⟨hspec.1, fun h6 => ?_⟩
        rw [← hst]
        exact hspec.2.1 h6
      · rw [if_neg hp] at h
        simp only [Except.ok.injEq, Prod.mk.injEq] at h
        obtain ⟨hst, hev⟩ := h
        rw [← hev]
        exact ⟨by decide, fun h6 => absurd h6 (by decide)⟩

/-- Claim C2 amended witness: the 7/60 s frame on `appReady` satisfies the
6-invocation bound. -/
theorem claim_C2_step_clamp_witness :
    (Application.fixedUpdate (Application.updateTiming appReady (7 / 60))).2 ≤ 6 := by
  have h := runFrame_eq_of_some appReady (7 / 60) engReady rfl rfl
  rw [if_pos (show appReady.paused = false from rfl)] at h
  exact (claim_C2_step_clamp appReady _ _ (7 / 60) h).1

/-- Claim C5 counterexample: on a fully-initialized, unpaused application
with `time_scale = 0` and an empty accumulator, a frame with raw delta
1/60 s invokes the fixed-update hook zero times — the fixed-step hook does
not "still fire each frame". -/
theorem claim_C5_fixed_hook_counterexample :
    fixedCountOf (Application.runFrame appTS0 (1 / 60)) = 0 := by
  have h := runFrame_eq_of_some appTS0 (1 / 60) engReady rfl rfl
  rw [if_pos (show appTS0.paused = false from rfl)] at h
  rw [h]
  have hdt : (Application.updateTiming appTS0 (1 / 60)).timing.delta_time = 0 := by
    show min (1 / 60 * appTS0.time_scale) appTS0.max_delta_time = 0
    norm_num [appTS0, appReady, mkApplication, Application.setTimeScale, min_def]
  simp only [fixedCountOf, Application.fixedUpdate]
  rw [hdt]
  have hzero : (Application.updateTiming appTS0 (1 / 60)).accumulator + 0 = 0 := by
    show (0 : ℚ) + 0 = 0
    norm_num
  rw [hzero]
  have hft : (Application.updateTiming appTS0 (1 / 60)).fixed_timestep = 1 / 60 := rfl
  rw [hft, fixedLoopAux_of_lt _ _ _ (by norm_num : (0 : ℚ) < 1 / 60)]

/-- Claim C5 amended: after `setTimeScale(0)`, an unpaused frame has
`delta_time = 0`, the accumulator never grows (it only drains leftover
time), the variable-step hook still fires (seeing the zero delta), but the
fixed-update hook fires only on leftover accumulated time: with the
accumulator below one fixed step it fires zero times and the accumulator
is unchanged. -/
theorem claim_C5_time_scale_zero (st : AppState) (raw : ℚ) (eng : EngineState)
    (st' : AppState) (ev : FrameEvents)
    (hengine : st.engine = some eng) (hi : eng.initialized = true)
    (hp : st.paused = false)
    (hts : st.time_scale = 0) (hmax : 0 ≤ st.max_delta_time)
    (hfix : 0 < st.fixed_timestep)
    (h : Application.runFrame st raw = .ok (st', ev)) :
    st'.timing.delta_time = 0 ∧
    st'.accumulator ≤ st.accumulator ∧
    ev.updateCalled = true ∧
    (st.accumulator < st.fixed_timestep →
      st'.accumulator = st.accumulator ∧ ev.fixedInvocations = 0) := by
  rw [runFrame_eq_of_some st raw eng hengine hi, if_pos hp] at h
  simp only [Except.ok.injEq, Prod.mk.injEq] at h
  obtain ⟨hst, hev⟩ := h
  have hdt : (Application.updateTiming st raw).timing.delta_time = 0 := by
    show min (raw * st.time_scale) st.max_delta_time = 0
    rw [hts, mul_zero]
    exact min_eq_left hmax
  have hacc : (Application.fixedUpdate (Application.updateTiming st raw)).1.accumulator =
      (fixedLoopAux st.fixed_timestep st.accumulator 0).1 := by
    show (fixedLoopAux st.fixed_timestep
      ((Application.updateTiming st raw).accumulator +
        (Application.updateTiming st raw).timing.delta_time) 0).1 =
      (fixedLoopAux st.fixed_timestep st.accumulator 0).1
    rw [hdt, add_zero]
    rfl
  have hcnt : (Application.fixedUpdate (Application.updateTiming st raw)).2 =
      (fixedLoopAux st.fixed_timestep st.accumulator 0).2 := by
    show (fixedLoopAux st.fixed_timestep
      ((Application.updateTiming st raw).accumulator +
        (Application.updateTiming st raw).timing.delta_time) 0).2 =
      (fixedLoopAux st.fixed_timestep st.accumulator 0).2
    rw [hdt, add_zero]
    rfl
  have e1 : st'.accumulator =
      (Application.fixedUpdate (Application.updateTiming st raw)).1.accumulator := by
    rw [← hst]
  have e2 : st'.timing.delta_time =
      (Application.fixedUpdate (Application.updateTiming st raw)).1.timing.delta_time := by
    rw [← hst]
  have hdt2 : (Application.fixedUpdate (Application.updateTiming st raw)).1.timing.delta_time =
      (Application.updateTiming st raw).timing.delta_time := rfl
  have e3 : ev.fixedInvocations =
      (Application.fixedUpdate (Application.updateTiming st raw)).2 := by
    rw [← hev]
  have e4 : ev.updateCalled = true := by
    rw [← hev]
  have hspec := fixedLoopAux_spec st.fixed_timestep 6 0 st.accumulator
    (by omega) (by omega)
  refine ⟨?_, ?_, e4, ?_⟩
  · rw [e2, hdt2, hdt]
  · rw [e1, hacc]
    exact hspec.2.2.1 hfix
  · intro hlt
    have hloop := fixedLoopAux_of_lt st.fixed_timestep st.accumulator 0 hlt
    constructor
    · rw [e1, hacc, hloop]
    · rw [e3, hcnt, hloop]

/-- Claim C5 amended witness: on `appTS0` (time scale 0, unpaused, empty
accumulator) with raw delta 1/60 s: the frame's delta is 0, the
accumulator is unchanged, and the fixed-step hook fires zero times. -/
theorem claim_C5_time_scale_zero_witness :
    (stateOf (Application.runFrame appTS0 (1 / 60))).map
      (fun s => s.timing.delta_time) = some 0 ∧
    (stateOf (Application.runFrame appTS0 (1 / 60))).map
      (fun s => s.accumulator) = some appTS0.accumulator := by
  have h := runFrame_eq_of_some appTS0 (1 / 60) engReady rfl rfl
  rw [if_pos (show appTS0.paused = false from rfl)] at h
  have hres := claim_C5_time_scale_zero appTS0 (1 / 60) engReady _ _
    rfl rfl rfl rfl (by norm_num [appTS0, appReady, mkApplication,
      Application.setTimeScale])
    (by norm_num [appTS0, appReady, mkApplication, Application.setTimeScale]) h
  have hlt : appTS0.accumulator < appTS0.fixed_timestep := by
    norm_num [appTS0, appReady, mkApplication, Application.setTimeScale]
  rw [h]
  simp only [stateOf, Option.map_some, Option.map_some']
  exact ⟨congrArg some hres.1, congrArg some (hres.2.2.2 hlt).1⟩

/-- One frame of the spec's scenario 5: a `runFrame` call with raw duration
1/60 s, keeping the resulting state (for an initialized engine `runFrame`
always succeeds, so the identity fallback is never taken). -/
def frameC3 (st : AppState) : AppState :=
  match Application.runFrame st (1 / 60) with
  | .ok p => p.1
  | .error _ => st

/-- The FPS ring after `k` frames of the scenario, `k ≤ 60`: the first `k`
slots overwritten with 1/60, the rest still holding the initial zeros. -/
def ringFill (k : Nat) : List ℚ :=
  List.replicate k (1 / 60) ++ List.replicate (60 - k) 0

/-- Overwriting any slot of a constant list with the same constant is the
identity. -/
lemma set_replicate_self (c : ℚ) : ∀ n i, (List.replicate n c).set i c = List.replicate n c
  | 0, _ => rfl
  | n + 1, 0 => by simp [List.replicate_succ]
  | n + 1, i + 1 => by
    simp [List.replicate_succ, set_replicate_self c n i]

/-- Writing 1/60 into the next free slot advances the fill by one. -/
lemma ringFill_set (k : Nat) (hk : k < 60) :
    (ringFill k).set k (1 / 60) = ringFill (k + 1) := by
  unfold ringFill
  rw [List.set_append_right _ _ (by simp)]
  simp only [List.length_replicate, Nat.sub_self]
  have h60 : 60 - k = (60 - (k + 1)) + 1 := by omega
  rw [h60, List.replicate_succ, List.set_cons_zero, List.replicate_succ']
  simp

/-- How one scenario frame transforms the application state: the FPS ring
gains a 1/60 sample at the write index, the index advances circularly, and
the engine handle, pause flag and timing configuration are untouched. -/
lemma frameC3_step (st : AppState)
    (heng : st.engine = some engReady) (hp : st.paused = false) :
    (frameC3 st).engine = some engReady ∧
    (frameC3 st).paused = false ∧
    (frameC3 st).fps_samples = st.fps_samples.set st.fps_sample_index (1 / 60) ∧
    (frameC3 st).fps_sample_index = (st.fps_sample_index + 1) % 60 := by
  have h := runFrame_eq_of_some st (1 / 60) engReady heng rfl
  rw [if_pos hp] at h
  unfold frameC3
  rw [h]
  exact ⟨heng, hp, rfl, rfl⟩

/-- The state after `n` scenario frames from `appReady`: the write index is
`n % 60` and the ring holds `min n 60` overwritten slots — in particular
it is entirely overwritten once `n` reaches 60. -/
lemma frameC3_iter (n : Nat) :
    (frameC3^[n] appReady).engine = some engReady ∧
    (frameC3^[n] appReady).paused = false ∧
    (frameC3^[n] appReady).fps_sample_index = n % 60 ∧
    (frameC3^[n] appReady).fps_samples =
      (if n < 60 then ringFill n else List.replicate 60 (1 / 60)) := by
  induction n with
  | zero =>
    refine ⟨rfl, rfl, rfl, ?_⟩
    simp [ringFill, appReady, mkApplication]
  | succ n ih =>
    obtain ⟨iheng, ihp, ihidx, ihsamp⟩ := ih
    rw [Function.iterate_succ_apply']
    obtain ⟨heng, hp, hsamp, hidx⟩ := frameC3_step _ iheng ihp
    refine ⟨heng, hp, ?_, ?_⟩
    · rw [hidx, ihidx]
      conv_rhs => rw [Nat.add_mod]
    · rw [hsamp, ihsamp, ihidx]
      by_cases hn : n < 60
      · rw [if_pos hn, Nat.mod_eq_of_lt hn, ringFill_set n hn]
        by_cases hn1 : n + 1 < 60
        · rw [if_pos hn1]
        · rw [if_neg hn1]
          have : n + 1 = 60 := by omega
          rw [this]
          simp [ringFill]
      · rw [if_neg hn, set_replicate_self]
        rw [if_neg (by omega)]

/-- Claim C3: after 65 consecutive frames of raw duration 1/60 s the
60-slot ring holds sixty 1/60 samples, yet `getAverageFPS` — which sums
the raw durations and divides by the sample count — returns 1/60 (the mean
frame duration in seconds), not the 60 frames-per-second the spec
promises: the function never inverts its duration samples. -/
theorem claim_C3_average_fps_eval :
    Application.getAverageFPS (frameC3^[65] appReady) = 1 / 60 ∧
    Application.getAverageFPS (frameC3^[65] appReady) ≠ 60 := by
  have h := (frameC3_iter 65).2.2.2
  rw [if_neg (by omega)] at h
  unfold Application.getAverageFPS
  rw [h, List.sum_replicate]
  norm_num [FPS_SAMPLE_COUNT]

/-- With every stage succeeding and a valid configuration, bring-up
returns success and leaves the engine initialized, running, with a live
window. -/
lemma initialize_all_ok (st : EngineState)
    (hinit : st.initialized = false)
    (hval : validateEngineConfig st.config = .ok ()) :
    (AshbornEngine.initializeEngine st rAllOk).result = .ok () ∧
    (AshbornEngine.initializeEngine st rAllOk).state =
      { st with window := some ⟨false⟩, initialized := true, running := true } := by
  rw [AshbornEngine.initializeEngine, if_neg (by simp [hinit]), hval]
  simp [rAllOk]

/-- Claim C4: with a valid configuration and successful bring-up, a frame
schedule of `n` clean frames, a failing frame and arbitrary leftover
frames makes `runApplication` execute exactly `n + 1` frames (the loop
stops at the failure, the leftover schedule is never run), skip the
`on_shutdown` callback, still shut the engine down (the engine destructor
runs the full tear-down as `app` leaves scope), and exit with status 1. -/
theorem claim_C4_frame_failure (config : EngineConfig) (n : Nat)
    (e : ApplicationError) (rest : List (Option ApplicationError))
    (hval : validateEngineConfig config = .ok ()) :
    runApplication config rAllOk (List.replicate n none ++ some e :: rest) true =
      (1, ⟨n + 1, false, true⟩) := by
  obtain ⟨hres, hstate⟩ := initialize_all_ok (mkEngine config) rfl hval
  simp only [mkEngine] at hres hstate
  simp only [runApplication, Application.run, Application.initializeApp,
    mkApplication, mkEngine, runLoop_replicate_fail, hres, hstate]
  simp

/-- Claim C4 witness: default configuration, one clean frame, then a
failing frame with one more scheduled behind it: exit status 1, exactly 2
frames executed, no `on_shutdown` callback, engine shut down by the
destructor. -/
theorem claim_C4_frame_failure_witness :
    runApplication {} rAllOk
      (List.replicate 1 none ++ some ApplicationError.Unknown :: [none]) true =
      (1, ⟨2, false, true⟩) :=
  claim_C4_frame_failure {} 1 .Unknown [none] rfl
